import Mathlib

/-!
Verification of the head-metadata behavior of the manxeguin.github.io blog.

The embedded code is the theme head function of `src/theme.config.jsx`
(lines 3-15) and the document shell of `src/pages/_document.js`.
JSX meta elements become `HeadTag` records; the JS truthiness test
`meta.tag && <meta .../>` becomes a test for the empty string, since the
front-matter reader delivers string fields and the only falsy string is `""`.
-/

namespace ManxeguinBlog

/-- Kind of attribute carrying the key of a meta element: `name=` or `property=`. -/
inductive TagKind where
  | name : TagKind
  | property : TagKind
deriving DecidableEq, Repr

/-- One head-tag declaration: attribute kind, key and content. -/
structure HeadTag where
  kind : TagKind
  key : String
  content : String
deriving DecidableEq, Repr

/-- Per-page front matter as the theme head function receives it.
The recognized front-matter keys besides `title` are `description`, `tag`,
`date` and `author` (see the posts under `src/pages/posts/`); the head
function reads only `description` and `tag`. -/
structure PageMeta where
  description : String
  tag : String
  date : String
  author : String
deriving DecidableEq, Repr

/-- The fixed site-name constant appearing in the theme configuration. -/
def siteName : String := "Manxeguin Dev"

/-- Embedding of the theme head function (`head:` in `src/theme.config.jsx`,
lines 3-15): seven meta elements emitted unconditionally, followed by a
`keywords` element emitted exactly when `meta.tag` is truthy (non-empty). -/
def head (title : String) (m : PageMeta) : List HeadTag :=
  [ ⟨TagKind.name, "description", m.description⟩,
    ⟨TagKind.property, "og:site_name", siteName⟩,
    ⟨TagKind.property, "og:description", m.description⟩,
    ⟨TagKind.property, "og:title", title⟩,
    ⟨TagKind.name, "twitter:site", siteName⟩,
    ⟨TagKind.name, "twitter:title", title⟩,
    ⟨TagKind.name, "twitter:description", m.description⟩ ]
  ++ (if m.tag = "" then [] else [⟨TagKind.name, "keywords", m.tag⟩])

/-- The keys of the seven description-dependent tags, in the order the
theme emits them. -/
def sevenKeys : List String :=
  ["description", "og:site_name", "og:description", "og:title",
   "twitter:site", "twitter:title", "twitter:description"]

/-- Number of tags of a head sequence whose key is one of the seven
description-dependent keys. -/
def countSeven (l : List HeadTag) : Nat :=
  (l.filter (fun x => sevenKeys.contains x.key)).length

/-- Number of tags of a head sequence carrying a given key. -/
def countKey (k : String) (l : List HeadTag) : Nat :=
  (l.filter (fun x => x.key == k)).length

/-- Elements of the document shell head: meta tags and script tags
(a script records its `src`, its `data-key` and whether it is `async`). -/
inductive HeadElem where
  | metaTag : HeadTag → HeadElem
  | script : String → String → Bool → HeadElem
deriving DecidableEq, Repr

/-- Whether a document-shell head element is a script tag. -/
def isScript : HeadElem → Bool
  | HeadElem.metaTag _ => false
  | HeadElem.script _ _ _ => true

/-- The fixed third-party analytics script URL of `src/pages/_document.js`. -/
def analyticsSrc : String := "https://analytics.ahrefs.com/analytics.js"

/-- The fixed analytics client key of `src/pages/_document.js`. -/
def analyticsKey : String := "u+KvGRKGKo1F4iIh3WqmoQ"

/-- Embedding of the document shell head (`Document` in
`src/pages/_document.js`, lines 14-25): a constant sequence, emitted for
every page render, with no dependence on per-page content (the component
takes no per-page input). -/
def documentHead : List HeadElem :=
  [ HeadElem.metaTag ⟨TagKind.name, "robots", "follow, index"⟩,
    HeadElem.metaTag ⟨TagKind.name, "description", "Blog about frontend"⟩,
    HeadElem.metaTag ⟨TagKind.property, "og:site_name", "Manxeguin Dev"⟩,
    HeadElem.metaTag ⟨TagKind.property, "og:description", "Blog about frontend"⟩,
    HeadElem.metaTag ⟨TagKind.property, "og:title", "Manxeguin Dev"⟩,
    HeadElem.metaTag ⟨TagKind.property, "og:image", "https://assets.vercel.com/image/upload/q_auto/front/vercel/dps.png"⟩,
    HeadElem.metaTag ⟨TagKind.name, "twitter:card", "summary_large_image"⟩,
    HeadElem.metaTag ⟨TagKind.name, "twitter:site", "@yourname"⟩,
    HeadElem.metaTag ⟨TagKind.name, "twitter:title", "Manxeguin Dev"⟩,
    HeadElem.metaTag ⟨TagKind.name, "twitter:description", "Blog about frontend"⟩,
    HeadElem.metaTag ⟨TagKind.name, "twitter:image", "https://assets.vercel.com/image/upload/q_auto/front/vercel/dps.png"⟩,
    HeadElem.script analyticsSrc analyticsKey true ]

/-- C1 counterexample: at the spec's own example input (empty description,
non-empty tag), the head function emits all seven description-dependent
tags, not zero of them. -/
theorem c1_counterexample :
    countSeven (head "My Post" ⟨"", "frontend, microfrontend", "", ""⟩) ≠ 0 := by
  decide

/-- C1 (amended): for every input with empty `meta.description`, the head
function still emits all seven description-dependent tags; the
description-content tag is present with empty content. -/
theorem c1_amended (t : String) (m : PageMeta) (h : m.description = "") :
    countSeven (head t m) = 7 ∧
    (⟨TagKind.name, "description", ""⟩ : HeadTag) ∈ head t m := by
  constructor
  · unfold countSeven head
    rcases eq_or_ne m.tag "" with h2 | h2
    · rw [if_pos h2]; rfl
    · rw [if_neg h2]; rfl
  · rw [← h]
    unfold head
    exact List.mem_append_left _ (by simp)

/-- C1 witness: the amended claim instantiated at a concrete input with
empty description. -/
theorem c1_amended_witness :
    countSeven (head "Untitled" ⟨"", "", "", ""⟩) = 7 ∧
    (⟨TagKind.name, "description", ""⟩ : HeadTag) ∈ head "Untitled" ⟨"", "", "", ""⟩ :=
  c1_amended "Untitled" ⟨"", "", "", ""⟩ rfl

/-- C2 counterexample: with non-empty description and non-empty tag the
head function returns 8 tags, not exactly 7. -/
theorem c2_counterexample :
    (head "t" ⟨"d", "k", "", ""⟩).length ≠ 7 := by
  decide

/-- C2 (amended): for every input with non-empty `meta.description` and
empty `meta.tag`, the head function returns exactly 7 tags, among them
exactly one `og:title` tag and exactly one `twitter:title` tag whose
content equals the title argument. -/
theorem c2_amended (t : String) (m : PageMeta)
    (hd : m.description ≠ "") (ht : m.tag = "") :
    (head t m).length = 7 ∧
    countKey "og:title" (head t m) = 1 ∧
    (⟨TagKind.property, "og:title", t⟩ : HeadTag) ∈ head t m ∧
    countKey "twitter:title" (head t m) = 1 ∧
    (⟨TagKind.name, "twitter:title", t⟩ : HeadTag) ∈ head t m := by
  unfold countKey head
  rw [if_pos ht]
  exact ⟨rfl, rfl, by simp, rfl, by simp⟩

/-- C2 witness: the amended claim instantiated at the spec's first example
input. -/
theorem c2_amended_witness :
    (head "Acme Dashboard" ⟨"Real-time metrics", "", "", ""⟩).length = 7 ∧
    countKey "og:title" (head "Acme Dashboard" ⟨"Real-time metrics", "", "", ""⟩) = 1 ∧
    (⟨TagKind.property, "og:title", "Acme Dashboard"⟩ : HeadTag) ∈
      head "Acme Dashboard" ⟨"Real-time metrics", "", "", ""⟩ ∧
    countKey "twitter:title" (head "Acme Dashboard" ⟨"Real-time metrics", "", "", ""⟩) = 1 ∧
    (⟨TagKind.name, "twitter:title", "Acme Dashboard"⟩ : HeadTag) ∈
      head "Acme Dashboard" ⟨"Real-time metrics", "", "", ""⟩ :=
  c2_amended "Acme Dashboard" ⟨"Real-time metrics", "", "", ""⟩ (by decide) rfl

/-- C3: the head output contains exactly one `keywords` tag, with content
equal to `meta.tag` verbatim, exactly when `meta.tag` is non-empty; when
`meta.tag` is empty no `keywords` tag is present. -/
theorem c3_keywords (t : String) (m : PageMeta) :
    (m.tag ≠ "" →
      countKey "keywords" (head t m) = 1 ∧
      (⟨TagKind.name, "keywords", m.tag⟩ : HeadTag) ∈ head t m) ∧
    (m.tag = "" → countKey "keywords" (head t m) = 0) := by
  refine ⟨fun h => ⟨?_, ?_⟩, fun h => ?_⟩
  · unfold countKey head
    rw [if_neg h]
    rfl
  · unfold head
    rw [if_neg h]
    exact List.mem_append_right _ (by simp)
  · unfold countKey head
    rw [if_pos h]
    rfl

/-- C3 witness: the keyword branch instantiated at a concrete input with a
non-empty tag. -/
theorem c3_keywords_witness :
    countKey "keywords" (head "Micro Frontends are hard"
      ⟨"My personal take about distributed frontend development.",
       "frontend, microfrontend", "2024/7/30", ""⟩) = 1 ∧
    (⟨TagKind.name, "keywords", "frontend, microfrontend"⟩ : HeadTag) ∈
      head "Micro Frontends are hard"
      ⟨"My personal take about distributed frontend development.",
       "frontend, microfrontend", "2024/7/30", ""⟩ :=
  (c3_keywords "Micro Frontends are hard"
      ⟨"My personal take about distributed frontend development.",
       "frontend, microfrontend", "2024/7/30", ""⟩).1 (by decide)

/-- C4: for every input, the head output contains an `og:title` tag and a
`twitter:title` tag whose content equals the title argument, whatever the
description and tag fields hold. -/
theorem c4_title_always (t : String) (m : PageMeta) :
    (⟨TagKind.property, "og:title", t⟩ : HeadTag) ∈ head t m ∧
    (⟨TagKind.name, "twitter:title", t⟩ : HeadTag) ∈ head t m := by
  unfold head
  exact ⟨List.mem_append_left _ (by simp), List.mem_append_left _ (by simp)⟩

/-- C5: for every input with non-empty `meta.description`, the seven
description-dependent tags appear in the head output in exactly the
specified order and with the specified attribute kinds. -/
theorem c5_order (t : String) (m : PageMeta) (h : m.description ≠ "") :
    (head t m).filter (fun x => sevenKeys.contains x.key) =
      [ ⟨TagKind.name, "description", m.description⟩,
        ⟨TagKind.property, "og:site_name", siteName⟩,
        ⟨TagKind.property, "og:description", m.description⟩,
        ⟨TagKind.property, "og:title", t⟩,
        ⟨TagKind.name, "twitter:site", siteName⟩,
        ⟨TagKind.name, "twitter:title", t⟩,
        ⟨TagKind.name, "twitter:description", m.description⟩ ] := by
  unfold head
  rcases eq_or_ne m.tag "" with h2 | h2
  · rw [if_pos h2]; rfl
  · rw [if_neg h2]; rfl

/-- C5 witness: the order property instantiated at the spec's first example
input. -/
theorem c5_order_witness :
    (head "Acme" ⟨"Real-time metrics", "", "", ""⟩).filter
        (fun x => sevenKeys.contains x.key) =
      [ ⟨TagKind.name, "description", "Real-time metrics"⟩,
        ⟨TagKind.property, "og:site_name", siteName⟩,
        ⟨TagKind.property, "og:description", "Real-time metrics"⟩,
        ⟨TagKind.property, "og:title", "Acme"⟩,
        ⟨TagKind.name, "twitter:site", siteName⟩,
        ⟨TagKind.name, "twitter:title", "Acme"⟩,
        ⟨TagKind.name, "twitter:description", "Real-time metrics"⟩ ] :=
  c5_order "Acme" ⟨"Real-time metrics", "", "", ""⟩ (by decide)

/-- C6 counterexample: with the title missing (empty string) the head
function still silently returns a non-empty tag sequence, containing an
`og:title` tag with empty content; no error path exists in the function. -/
theorem c6_counterexample :
    head "" ⟨"Blog about frontend", "", "", ""⟩ ≠ [] ∧
    (⟨TagKind.property, "og:title", ""⟩ : HeadTag) ∈
      head "" ⟨"Blog about frontend", "", "", ""⟩ := by
  decide

/-- C6 (amended): when the title is missing (empty string), the head
function silently returns the full tag sequence of at least 7 tags, with
`og:title` and `twitter:title` carrying empty content; no configuration
error is raised. -/
theorem c6_amended (m : PageMeta) :
    7 ≤ (head "" m).length ∧
    (⟨TagKind.property, "og:title", ""⟩ : HeadTag) ∈ head "" m ∧
    (⟨TagKind.name, "twitter:title", ""⟩ : HeadTag) ∈ head "" m := by
  refine ⟨?_, ?_, ?_⟩
  · unfold head
    rcases eq_or_ne m.tag "" with h2 | h2
    · rw [if_pos h2]; exact (by decide : (7 : Nat) ≤ 7)
    · rw [if_neg h2]; exact (by decide : (7 : Nat) ≤ 8)
  · unfold head
    exact List.mem_append_left _ (by simp)
  · unfold head
    exact List.mem_append_left _ (by simp)

/-- C7: the head function is deterministic; two calls with identical title
and metadata inputs return identical output sequences. -/
theorem c7_deterministic (t1 t2 : String) (m1 m2 : PageMeta)
    (ht : t1 = t2) (hm : m1 = m2) :
    head t1 m1 = head t2 m2 := by
  rw [ht, hm]

/-- C7 witness: determinism instantiated at a concrete input. -/
theorem c7_deterministic_witness :
    head "My Post" ⟨"d", "k", "", ""⟩ = head "My Post" ⟨"d", "k", "", ""⟩ :=
  c7_deterministic "My Post" "My Post" ⟨"d", "k", "", ""⟩ ⟨"d", "k", "", ""⟩ rfl rfl

/-- C8: the document shell head, a constant sequence emitted for every
page render, contains a robots meta tag with content "follow, index" and
exactly one script element, which references the fixed analytics URL with
the fixed client key and is loaded asynchronously. -/
theorem c8_document_shell :
    HeadElem.metaTag ⟨TagKind.name, "robots", "follow, index"⟩ ∈ documentHead ∧
    (documentHead.filter isScript).length = 1 ∧
    HeadElem.script analyticsSrc analyticsKey true ∈ documentHead := by
  decide

/-- C9: the head output depends only on the title and on the
`description` and `tag` fields of the metadata; metadata values agreeing
on those two fields but differing in `date`, `author` or anything else
give identical outputs. -/
theorem c9_noninterference (t : String) (m1 m2 : PageMeta)
    (hd : m1.description = m2.description) (ht : m1.tag = m2.tag) :
    head t m1 = head t m2 := by
  unfold head
  rw [hd, ht]

/-- C9 witness: noninterference instantiated at two inputs differing only
in the `date` and `author` fields. -/
theorem c9_noninterference_witness :
    head "My Post" ⟨"d", "k", "2024/7/30", "alice"⟩ =
      head "My Post" ⟨"d", "k", "2024/8/30", "bob"⟩ :=
  c9_noninterference "My Post" ⟨"d", "k", "2024/7/30", "alice"⟩
    ⟨"d", "k", "2024/8/30", "bob"⟩ rfl rfl

/-- C10: the head function returns exactly 8 tags when `meta.tag` is
non-empty and exactly 7 when it is empty, independent of the description;
when the `keywords` tag is present it is the last element of the output. -/
theorem c10_length_and_last (t : String) (m : PageMeta) :
    (m.tag ≠ "" →
      (head t m).length = 8 ∧
      (head t m).getLast? = some ⟨TagKind.name, "keywords", m.tag⟩) ∧
    (m.tag = "" →
      (head t m).length = 7 ∧ countKey "keywords" (head t m) = 0) := by
  refine ⟨fun h => ?_, fun h => ?_⟩
  · unfold head
    rw [if_neg h]
    exact ⟨rfl, rfl⟩
  · unfold head countKey
    rw [if_pos h]
    exact ⟨rfl, rfl⟩

/-- C10 witness: the non-empty-tag branch instantiated at a concrete
input with empty description and non-empty tag. -/
theorem c10_length_and_last_witness :
    (head "T" ⟨"", "frontend, microfrontend", "", ""⟩).length = 8 ∧
    (head "T" ⟨"", "frontend, microfrontend", "", ""⟩).getLast? =
      some ⟨TagKind.name, "keywords", "frontend, microfrontend"⟩ :=
  (c10_length_and_last "T" ⟨"", "frontend, microfrontend", "", ""⟩).1 (by decide)

end ManxeguinBlog
